import Mathlib

/-!
Verification of the relay-selection and config-synthesis logic of
`wg-conf-gen.py`, a WireGuard configuration generator for Mullvad VPN.

The script is a synchronous pipeline: fetch the provider's relay directory
(`ask_mullvad`), pick one relay at random (`get_random_gateway`), and write or
refresh a two-section key/value configuration file (`create` / `recreate`,
built on Python's `configparser` with `comment_prefixes=None` and
`optionxform=str`).

The embedding below models:
  - the directory data (`Country`/`City`/`Relay`) as read from the JSON
    response;
  - the network layer as an explicit outcome (`NetResult`): either a parsed
    response or a transport failure (`requests.RequestException` after the
    adapter's retries), on which `ask_mullvad` calls `sys.exit(2)`;
  - the random source of `random.randrange(0, max_len, 1)` as a `seed` that is
    reduced modulo the list length (every index is reachable, and the empty
    range raises `ValueError` exactly as `randrange` does);
  - a parsed configuration file as an ordered association list of sections,
    each an ordered association list of options (`configparser`'s in-memory
    form with case-sensitive keys and no interpolation sequences present);
  - a whole invocation's outcome (`RunResult`): the file content written, a
    `sys.exit(code)`, or an uncaught Python exception (which terminates the
    process with a non-zero status and writes nothing);
  - `configparser`'s on-disk serialization and its reader at the granularity
    of physical lines (faithful for values free of newline, carriage-return
    and interpolation characters, the regime the round-trip theorems are
    stated in).
-/

namespace WgConfGen

/-- Relay record as taken from the directory response: `hostname`,
`public_key` and `ipv4_addr_in` fields of one relay object. -/
structure Relay where
  hostname : String
  public_key : String
  ipv4_addr_in : String
  deriving DecidableEq

/-- One city of the directory response: its `name` and its `relays` list. -/
structure City where
  name : String
  relays : List Relay
  deriving DecidableEq

/-- One country of the directory response: its `name` and its `cities`. -/
structure Country where
  name : String
  cities : List City
  deriving DecidableEq

/-- Inner loop of `ask_mullvad` (lines 51-53): scan a matched country's
cities in order and return the first name-matching city's relay list. -/
def ask_mullvad_cities : List City → String → Option (List Relay)
  | [], _ => none
  | city :: rest, requested_city =>
    if city.name = requested_city then some city.relays
    else ask_mullvad_cities rest requested_city

/-- The pure scan of `ask_mullvad` (lines 49-54): iterate over
`mullvad_gateways["countries"]`; inside every country whose name equals
`requested_country`, iterate over its cities and return the first matching
city's `relays`; if the double loop falls through, return `None`. -/
def ask_mullvad : List Country → String → String → Option (List Relay)
  | [], _, _ => none
  | country :: rest, requested_country, requested_city =>
    if country.name = requested_country then
      match ask_mullvad_cities country.cities requested_city with
      | some relays => some relays
      | none => ask_mullvad rest requested_country requested_city
    else ask_mullvad rest requested_country requested_city

/-- Python exceptions that the modelled code paths can raise. -/
inductive PyError where
  | valueError
  | typeError
  | noSectionError (sectionName : String)
  | noOptionError (optionName : String)
  deriving DecidableEq

/-- `get_random_gateway` (lines 57-61): `max_len = len(available_relays)`,
`relay_number = random.randrange(0, max_len, 1)`, `available_relays[relay_number]`.
The argument is an `Option` because `recreate` passes `ask_mullvad`'s result
to it unchecked: on `None`, `len(None)` raises `TypeError`. `randrange` on an
empty range raises `ValueError`; otherwise it yields an index below `max_len`,
modelled by reducing an arbitrary `seed` modulo `max_len`. -/
def get_random_gateway (available_relays : Option (List Relay)) (seed : Nat) :
    Except PyError Relay :=
  match available_relays with
  | none => .error .typeError
  | some relays =>
    if h : relays.length = 0 then .error .valueError
    else .ok (relays.get ⟨seed % relays.length, Nat.mod_lt seed (Nat.pos_of_ne_zero h)⟩)

/-- Outcome of the HTTP GET to the relay directory: a parsed response body, or
a `requests.RequestException` after the adapter's retries are exhausted
(lines 39-47), on which `ask_mullvad` logs and calls `sys.exit(2)`. -/
inductive NetResult where
  | resp (countries : List Country)
  | netErr
  deriving DecidableEq

/-- In-memory form of a parsed configuration file: ordered sections, each an
ordered list of `(option, value)` pairs. `optionxform = str` keeps option
names case-sensitive, and `comment_prefixes=None` lets keys such as
`# Country` be ordinary options. -/
abbrev Config := List (String × List (String × String))

/-- Outcome of one `create`/`recreate` invocation: the configuration content
written to the file, a `sys.exit(code)` (no file written), or an uncaught
Python exception (process dies with a non-zero status, no file written). -/
inductive RunResult where
  | wrote (config : Config)
  | exited (code : Nat)
  | raised (e : PyError)
  deriving DecidableEq

/-- First section of a `Config` with the given name, if any. -/
def find_section : Config → String → Option (List (String × String))
  | [], _ => none
  | (name, items) :: rest, s =>
    if name = s then some items else find_section rest s

/-- First option with the given name inside one section's item list. -/
def find_opt : List (String × String) → String → Option String
  | [], _ => none
  | (key, value) :: rest, o =>
    if key = o then some value else find_opt rest o

/-- `ConfigParser.get(section, option)` for values free of interpolation
sequences: raises `NoSectionError` when the section is absent and
`NoOptionError` when the option is absent. -/
def config_get (config : Config) (sec opt : String) : Except PyError String :=
  match find_section config sec with
  | none => .error (.noSectionError sec)
  | some items =>
    match find_opt items opt with
    | none => .error (.noOptionError opt)
    | some value => .ok value

/-- Replace the first binding of `key` in a section (or append it), as a
`configparser` section's mutable mapping does on assignment. -/
def set_opt : List (String × String) → String → String → List (String × String)
  | [], key, value => [(key, value)]
  | (key', value') :: rest, key, value =>
    if key' = key then (key, value) :: rest
    else (key', value') :: set_opt rest key value

/-- `ConfigParser.set(section, option, value)` on a config whose section
exists (in `recreate` the preceding `get` calls establish that; on a missing
section `configparser` would raise `NoSectionError` instead). -/
def config_set : Config → String → String → String → Config
  | [], _, _, _ => []
  | (name, items) :: rest, s, key, value =>
    if name = s then (name, set_opt items key value) :: rest
    else (name, items) :: config_set rest s key value

/-- The `ClientConfig` that `create` builds (lines 106-123): the `Interface`
section from the caller-supplied private key, address and device label plus
fixed DNS, routing table and post-up rules, and the `Peer` section from the
requested location and the selected gateway. -/
def create_config (country city private_key address device : String)
    (gateway : Relay) : Config :=
  [("Interface",
    [("# Device", device),
     ("PrivateKey", private_key),
     ("Address", address),
     ("DNS", "10.64.0.1"),
     ("Table", "42"),
     ("PostUp", "ip -4 route add 10.64.0.1 dev exit & ip -4 route add 193.138.218.74 dev exit")]),
   ("Peer",
    [("# Country", country),
     ("# City", city),
     ("# Hostname", gateway.hostname),
     ("PublicKey", gateway.public_key),
     ("AllowedIPs", "0.0.0.0/0,::0/0"),
     ("Endpoint", gateway.ipv4_addr_in ++ ":51820")])]

/-- The `create` command (lines 84-126): fetch the directory (a transport
failure exits with status 2 inside `ask_mullvad`), exit with status 1 when
`ask_mullvad` returns `None`, otherwise pick a random gateway and write the
fresh two-section config to the file. -/
def create (country city private_key address device : String)
    (net : NetResult) (seed : Nat) : RunResult :=
  match net with
  | .netErr => .exited 2
  | .resp countries =>
    match ask_mullvad countries country city with
    | none => .exited 1
    | some available_relays =>
      match get_random_gateway (some available_relays) seed with
      | .error e => .raised e
      | .ok gateway =>
        .wrote (create_config country city private_key address device gateway)

/-- The three `config.set("Peer", ...)` calls of `recreate` (lines 155-157):
overwrite the hostname annotation, the public key and the endpoint with the
newly selected gateway's data. -/
def peer_refresh (config : Config) (gateway : Relay) : Config :=
  config_set
    (config_set
      (config_set config "Peer" "# Hostname" gateway.hostname)
      "Peer" "PublicKey" gateway.public_key)
    "Peer" "Endpoint" (gateway.ipv4_addr_in ++ ":51820")

/-- The `recreate` command (lines 135-160): `config.read(file)` yields an
empty config when the file is absent; the three `config.get("Peer", ...)`
calls raise `NoSectionError`/`NoOptionError` when the file lacks them; then
the directory is fetched for the stored country and city (a transport failure
exits with status 2), `ask_mullvad`'s result is passed to
`get_random_gateway` unchecked, the three peer fields are overwritten and the
updated config is written back. -/
def recreate (file : Option Config) (net : NetResult) (seed : Nat) : RunResult :=
  let config := file.getD []
  match config_get config "Peer" "# Country" with
  | .error e => .raised e
  | .ok country =>
    match config_get config "Peer" "# City" with
    | .error e => .raised e
    | .ok city =>
      match config_get config "Peer" "# Hostname" with
      | .error e => .raised e
      | .ok _old_hostname =>
        match net with
        | .netErr => .exited 2
        | .resp countries =>
          match get_random_gateway (ask_mullvad countries country city) seed with
          | .error e => .raised e
          | .ok gateway => .wrote (peer_refresh config gateway)

/-- Modelled from the spec's words, for comparison with `ask_mullvad`:
"Returns the relay list for the first country whose name exactly matches
`country` and, within it, the first city whose name exactly matches `city`."
Here the city search is confined to the first name-matching country. -/
def fetchRelays_specFirstCountry (countries : List Country)
    (requested_country requested_city : String) : Option (List Relay) :=
  match countries.find? (fun country => country.name == requested_country) with
  | none => none
  | some country =>
    match country.cities.find? (fun city => city.name == requested_city) with
    | none => none
    | some city => some city.relays

/-- First relay of the repository's own test directory response
(`nl-ams-wg-001` / `185.213.154.68`). -/
def testRelay1 : Relay := ⟨"nl-ams-wg-001", "test_public_key_1", "185.213.154.68"⟩

/-- Second relay of the repository's own test directory response
(`nl-ams-wg-002` / `185.213.154.69`). -/
def testRelay2 : Relay := ⟨"nl-ams-wg-002", "test_public_key_2", "185.213.154.69"⟩

/-- The test suite's directory response: Netherlands → Amsterdam → two relays. -/
def testDirectory : List Country :=
  [⟨"Netherlands", [⟨"Amsterdam", [testRelay1, testRelay2]⟩]⟩]

/-- The test suite's pre-existing config file (`create_test_config`). -/
def testConfig : Config :=
  [("Interface",
    [("# Device", "TestDevice"),
     ("PrivateKey", "test_private_key"),
     ("Address", "10.65.123.45/32"),
     ("DNS", "10.64.0.1"),
     ("Table", "42"),
     ("PostUp", "ip -4 route add 10.64.0.1 dev exit & ip -4 route add 193.138.218.74 dev exit")]),
   ("Peer",
    [("# Country", "Netherlands"),
     ("# City", "Amsterdam"),
     ("# Hostname", "old-hostname"),
     ("PublicKey", "old_public_key"),
     ("AllowedIPs", "0.0.0.0/0,::0/0"),
     ("Endpoint", "1.2.3.4:51820")])]

/-! ## Serialization: `ConfigParser.write` and `RawConfigParser._read`

The on-disk file is modelled at the granularity of its physical lines, each a
`List Char`; the real file is those lines joined with newlines. This is
faithful as long as no value holds a newline or carriage return (no
continuation lines and no universal-newline translation arise) and no `%`
(no interpolation) — the regime the round-trip theorems are stated in. -/

/-- Python `str.lstrip()` on a line's characters. -/
def lstripC (l : List Char) : List Char := l.dropWhile Char.isWhitespace

/-- Python `str.rstrip()` on a line's characters. -/
def rstripC (l : List Char) : List Char := (l.reverse.dropWhile Char.isWhitespace).reverse

/-- Python `str.strip()` on a line's characters. -/
def stripC (l : List Char) : List Char := rstripC (lstripC l)

/-- Option/value delimiter characters (`configparser`'s default
`delimiters=('=', ':')`). -/
def isDelim (c : Char) : Bool := c == '=' || c == ':'

/-- Split a line at its first delimiter character, as the non-greedy option
regex does: the text before the first `=` or `:` and the text after it. -/
def splitDelim : List Char → Option (List Char × List Char)
  | [] => none
  | c :: rest =>
    if isDelim c then some ([], rest)
    else
      match splitDelim rest with
      | none => none
      | some (pre, post) => some (c :: pre, post)

/-- Section-header test of the reader, matching the header regex at the
start of a line: an opening bracket, then a non-empty run of characters
other than a closing bracket, then a closing bracket (trailing text is
ignored, as the regex match is). -/
def header? (l : List Char) : Option String :=
  match l with
  | [] => none
  | c :: rest =>
    if c = '[' then
      if rest.contains ']' then
        match rest.takeWhile (fun d => d != ']') with
        | [] => none
        | h => some (String.mk h)
      else none
    else none

/-- One line of `ConfigParser.write` for an option: `key = value` (the
default `space_around_delimiters=True`). -/
def write_kv (key value : String) : List Char :=
  key.toList ++ ' ' :: '=' :: ' ' :: value.toList

/-- Option lines of one section, in order. -/
def write_items : List (String × String) → List (List Char)
  | [] => []
  | (key, value) :: rest => write_kv key value :: write_items rest

/-- Serialized lines of one section: the bracketed header, one line per
option, then the blank separator line `write` appends. -/
def write_section (name : String) (items : List (String × String)) : List (List Char) :=
  (('[' :: name.toList) ++ [']']) :: (write_items items ++ [[]])

/-- `ConfigParser.write`: the sections' lines in order. -/
def write_config : Config → List (List Char)
  | [] => []
  | (name, items) :: rest => write_section name items ++ write_config rest

/-- Close the section currently being filled by the reader. -/
def flushCur : Option (String × List (String × String)) → Config
  | none => []
  | some s => [s]

/-- The reader's loop over physical lines (`RawConfigParser._read`, for the
feature subset the written files exercise: `comment_prefixes=None`, strict
duplicate checks, and no continuation lines because no value holds a
newline). The state is the section being filled and the finished sections.
A blank line is skipped; an indented non-blank line, text before any
section header, a line without a delimiter, and a duplicate section or
option are parse errors, modelled as `none`. An option line is split at its
first delimiter; the key is right-stripped and the value fully stripped. -/
def parse_go : List (List Char) → Option (String × List (String × String)) →
    Config → Option Config
  | [], cur, acc => some (acc ++ flushCur cur)
  | l :: ls, cur, acc =>
    if l.all Char.isWhitespace then parse_go ls cur acc
    else if (l.headD 'x').isWhitespace then none
    else
      match header? l with
      | some name =>
        let flushed := acc ++ flushCur cur
        if (flushed.map Prod.fst).contains name then none
        else parse_go ls (some (name, [])) flushed
      | none =>
        match splitDelim l with
        | none => none
        | some (pre, post) =>
          match cur with
          | none => none
          | some (name, items) =>
            let key := String.mk (rstripC pre)
            let value := String.mk (stripC post)
            if (items.map Prod.fst).contains key then none
            else parse_go ls (some (name, items ++ [(key, value)])) acc

/-- Parse a whole written file — its list of physical lines — back into a
`Config`. -/
def parse_config (lines : List (List Char)) : Option Config := parse_go lines none []

/-- A value round-trips verbatim through write-then-read when it has no
leading or trailing whitespace (the reader strips the parsed value), no
newline or carriage return (no continuation lines, no universal-newline
translation) and no `%` (no interpolation). -/
abbrev okValue (v : String) : Prop :=
  lstripC v.toList = v.toList ∧ rstripC v.toList = v.toList ∧
    ∀ c ∈ v.toList, c ≠ '\n' ∧ c ≠ '\r' ∧ c ≠ '%'

/-- An option key survives the reader's line classification: non-empty, not
starting with whitespace (no continuation) or an opening bracket (no
header), free of delimiter characters, and right-stripped. -/
abbrev okKey (k : String) : Prop :=
  k.toList ≠ [] ∧ (k.toList.headD 'x').isWhitespace = false ∧
    k.toList.headD 'x' ≠ '[' ∧ (∀ c ∈ k.toList, isDelim c = false) ∧
    rstripC k.toList = k.toList

/-- A section name survives the header round-trip: non-empty and free of
closing brackets. -/
abbrev okSectionName (s : String) : Prop :=
  s.toList ≠ [] ∧ ∀ c ∈ s.toList, (c == ']') = false

/-! ## Supporting lemmas -/

/-- The inner city loop is `List.find?` on the city name, projected to the
relay list. -/
theorem ask_mullvad_cities_eq_find (cities : List City) (requested_city : String) :
    ask_mullvad_cities cities requested_city =
      (cities.find? (fun city => city.name == requested_city)).map City.relays := by
  induction cities with
  | nil => rfl
  | cons city rest ih =>
    by_cases h : city.name = requested_city
    · simp [ask_mullvad_cities, List.find?, h]
    · have hb : (city.name == requested_city) = false := beq_eq_false_iff_ne.mpr h
      simp [ask_mullvad_cities, List.find?, h, hb, ih]

/-- The city loop finds nothing exactly when no city name matches. -/
theorem ask_mullvad_cities_eq_none_iff (cities : List City) (requested_city : String) :
    ask_mullvad_cities cities requested_city = none ↔
      ∀ city ∈ cities, city.name ≠ requested_city := by
  induction cities with
  | nil => simp [ask_mullvad_cities]
  | cons city rest ih =>
    by_cases h : city.name = requested_city
    · simp [ask_mullvad_cities, h]
    · simp [ask_mullvad_cities, h, ih]

/-- The country scan of `ask_mullvad` as a `List.findSome?`: every country
whose name matches is searched, and the first matching city anywhere wins. -/
theorem ask_mullvad_eq_findSome (countries : List Country)
    (requested_country requested_city : String) :
    ask_mullvad countries requested_country requested_city =
      countries.findSome? (fun country =>
        if country.name = requested_country then
          (country.cities.find? (fun city => city.name == requested_city)).map City.relays
        else none) := by
  induction countries with
  | nil => rfl
  | cons country rest ih =>
    by_cases h : country.name = requested_country
    · rw [ask_mullvad, if_pos h, List.findSome?_cons, if_pos h,
        ← ask_mullvad_cities_eq_find]
      cases hcity : ask_mullvad_cities country.cities requested_city with
      | none => simpa using ih
      | some relays => rfl
    · rw [ask_mullvad, if_neg h, List.findSome?_cons, if_neg h, ih]

/-- `ask_mullvad` returns `None` exactly when no name-matching country
contains a name-matching city. -/
theorem ask_mullvad_eq_none_iff (countries : List Country)
    (requested_country requested_city : String) :
    ask_mullvad countries requested_country requested_city = none ↔
      ∀ country ∈ countries, country.name = requested_country →
        ∀ city ∈ country.cities, city.name ≠ requested_city := by
  induction countries with
  | nil => simp [ask_mullvad]
  | cons country rest ih =>
    by_cases h : country.name = requested_country
    · rw [ask_mullvad, if_pos h]
      cases hcity : ask_mullvad_cities country.cities requested_city with
      | none =>
        have hnone := (ask_mullvad_cities_eq_none_iff country.cities requested_city).mp hcity
        simp only [ih, h]
        constructor
        · intro hrest
          intro c hc hname
          rcases List.mem_cons.mp hc with hc | hc
          · subst hc
            exact hnone
          · exact hrest c hc hname
        · intro hall c hc hname
          exact hall c (List.mem_cons_of_mem _ hc) hname
      | some relays =>
        simp only [reduceCtorEq, false_iff]
        intro hall
        have := (ask_mullvad_cities_eq_none_iff country.cities requested_city).mpr
          (hall country (List.mem_cons_self _ _) h)
        rw [this] at hcity
        exact Option.noConfusion hcity
    · rw [ask_mullvad, if_neg h, ih]
      constructor
      · intro hrest c hc hname
        rcases List.mem_cons.mp hc with hc | hc
        · exact absurd (hc ▸ hname) h
        · exact hrest c hc hname
      · intro hall c hc hname
        exact hall c (List.mem_cons_of_mem _ hc) hname

/-- A string rebuilt from its character list is itself. -/
theorem mk_toList (s : String) : String.mk s.toList = s := rfl

/-- Right-stripping ignores a trailing space. -/
theorem rstripC_append_space (l : List Char) : rstripC (l ++ [' ']) = rstripC l := by
  have h : ' '.isWhitespace = true := rfl
  simp [rstripC, List.reverse_append, List.dropWhile_cons, h]

/-- Left-stripping ignores a leading space. -/
theorem lstripC_cons_space (l : List Char) : lstripC (' ' :: l) = lstripC l := by
  have h : ' '.isWhitespace = true := rfl
  simp [lstripC, List.dropWhile_cons, h]

/-- Stripping the written `space + value` text of an ok value recovers it. -/
theorem stripC_space_of_ok (v : String) (h : okValue v) :
    stripC (' ' :: v.toList) = v.toList := by
  rw [stripC, lstripC_cons_space, h.1]
  exact h.2.1

/-- A list fixed by left-stripping starts with a non-whitespace character. -/
theorem head_not_ws_of_lstrip (c : Char) (cs : List Char)
    (h : lstripC (c :: cs) = c :: cs) : c.isWhitespace = false := by
  rw [lstripC] at h
  have := List.dropWhile_eq_self_iff.mp h (by simp)
  simpa using this

/-- `splitDelim` cuts at the first delimiter character. -/
theorem splitDelim_append (pre : List Char) (hpre : ∀ c ∈ pre, isDelim c = false)
    (d : Char) (hd : isDelim d = true) (rest : List Char) :
    splitDelim (pre ++ d :: rest) = some (pre, rest) := by
  induction pre with
  | nil => simp [splitDelim, hd]
  | cons c cs ih =>
    have hc : isDelim c = false := hpre c (List.mem_cons_self ..)
    have ihc := ih fun x hx => hpre x (List.mem_cons_of_mem _ hx)
    simp [splitDelim, hc, ihc]

/-- `takeWhile` of not-a-closing-bracket stops exactly at the appended
closing bracket. -/
theorem takeWhile_until_rbracket (l : List Char) (h : ∀ c ∈ l, (c == ']') = false) :
    (l ++ [']']).takeWhile (fun d => d != ']') = l := by
  induction l with
  | nil => simp [List.takeWhile]
  | cons c cs ih =>
    have hc : (c == ']') = false := h c (List.mem_cons_self ..)
    have ihc := ih fun x hx => h x (List.mem_cons_of_mem _ hx)
    have hbne : (c != ']') = true := by simp [bne, hc]
    simp [List.takeWhile_cons, hbne, ihc]

/-- The header test recognizes exactly the written header line of an ok
section name. -/
theorem header?_write_line (s : String) (h : okSectionName s) :
    header? (('[' :: s.toList) ++ [']']) = some s := by
  obtain ⟨hne, hbr⟩ := h
  obtain ⟨c, cs, hcons⟩ : ∃ c cs, s.toList = c :: cs := by
    cases hl : s.toList with
    | nil => exact absurd hl hne
    | cons c cs => exact ⟨c, cs, rfl⟩
  have hc : (s.toList ++ [']']).contains ']' = true := by
    simp
  have htw := takeWhile_until_rbracket s.toList hbr
  rw [List.cons_append]
  simp only [header?]
  rw [if_pos trivial, if_pos hc, htw, hcons]
  show some (String.mk (c :: cs)) = some s
  rw [← hcons, mk_toList]

/-- The reader skips a blank line. -/
theorem parse_go_blank (ls : List (List Char))
    (cur : Option (String × List (String × String))) (acc : Config) :
    parse_go ([] :: ls) cur acc = parse_go ls cur acc := by
  simp [parse_go]

/-- The reader opens a new section on a header line, flushing the current
one, provided the name is not a duplicate. -/
theorem parse_go_header (l : List Char) (ls : List (List Char))
    (cur : Option (String × List (String × String))) (acc : Config) (name : String)
    (hall : l.all Char.isWhitespace = false)
    (hws : (l.headD 'x').isWhitespace = false)
    (hh : header? l = some name)
    (hdup : ((acc ++ flushCur cur).map Prod.fst).contains name = false) :
    parse_go (l :: ls) cur acc
      = parse_go ls (some (name, [])) (acc ++ flushCur cur) := by
  simp only [parse_go, hall, hws, hh, hdup]
  simp

/-- The reader turns a written `key = value` line of an ok key and ok value
into exactly that binding, appended to the current section. -/
theorem parse_go_kv (ls : List (List Char)) (name key value : String)
    (items : List (String × String)) (acc : Config)
    (hk : okKey key) (hv : okValue value)
    (hdup : (items.map Prod.fst).contains key = false) :
    parse_go (write_kv key value :: ls) (some (name, items)) acc
      = parse_go ls (some (name, items ++ [(key, value)])) acc := by
  obtain ⟨hne, hws, hbr, hdelim, hrs⟩ := hk
  obtain ⟨c, cs, hcons⟩ : ∃ c cs, key.toList = c :: cs := by
    cases hl : key.toList with
    | nil => exact absurd hl hne
    | cons c cs => exact ⟨c, cs, rfl⟩
  have hsplit : splitDelim (write_kv key value)
      = some (key.toList ++ [' '], ' ' :: value.toList) := by
    have hline : write_kv key value
        = (key.toList ++ [' ']) ++ '=' :: ' ' :: value.toList := by
      simp [write_kv]
    rw [hline]
    refine splitDelim_append _ (fun x hx => ?_) '=' rfl _
    rcases List.mem_append.mp hx with h | h
    · exact hdelim x h
    · simp at h
      subst h
      rfl
  have hall : (write_kv key value).all Char.isWhitespace = false := by
    cases hA : (write_kv key value).all Char.isWhitespace
    · rfl
    · have := List.all_eq_true.mp hA '=' (by simp [write_kv])
      exact absurd this (by decide)
  have hws' : ((write_kv key value).headD 'x').isWhitespace = false := by
    have : (write_kv key value).headD 'x' = c := by
      simp only [write_kv]
      rw [hcons]
      rfl
    rw [this]
    rw [hcons] at hws
    simpa using hws
  have hhdr : header? (write_kv key value) = none := by
    have hlc : write_kv key value = c :: (cs ++ ' ' :: '=' :: ' ' :: value.toList) := by
      simp only [write_kv]
      rw [hcons]
      rfl
    have hcbr : ¬ c = '[' := by
      rw [hcons] at hbr
      simpa using hbr
    rw [hlc]
    simp [header?, hcbr]
  have hkeyback : String.mk (rstripC (key.toList ++ [' '])) = key := by
    rw [rstripC_append_space, hrs, mk_toList]
  have hvalback : String.mk (stripC (' ' :: value.toList)) = value := by
    rw [stripC_space_of_ok value hv, mk_toList]
  simp only [parse_go, hall, hws', hhdr, hsplit, hkeyback, hvalback, hdup]
  simp

/-- The reader consumes the written lines of one section's options in
order, appending each binding to the current section, when the keys are ok
and distinct and the values are ok. -/
theorem parse_go_write_items (items : List (String × String)) (name : String)
    (ls : List (List Char)) (acc : Config) :
    ∀ done : List (String × String),
      (∀ kv ∈ items, okKey kv.1 ∧ okValue kv.2) →
      ((done ++ items).map Prod.fst).Nodup →
      parse_go (write_items items ++ ls) (some (name, done)) acc
        = parse_go ls (some (name, done ++ items)) acc := by
  induction items with
  | nil =>
    intro done _ _
    simp [write_items]
  | cons kv rest ih =>
    intro done hok hnodup
    obtain ⟨key, value⟩ := kv
    have hk := (hok (key, value) (List.mem_cons_self ..)).1
    have hv := (hok (key, value) (List.mem_cons_self ..)).2
    have hdup : (done.map Prod.fst).contains key = false := by
      rw [List.map_append] at hnodup
      have hdisj := (List.nodup_append.mp hnodup).2.2
      have hmem : key ∈ ((key, value) :: rest).map Prod.fst := by simp
      have hnot : key ∉ done.map Prod.fst := fun hin => hdisj hin hmem
      simpa using hnot
    rw [write_items, List.cons_append,
      parse_go_kv (write_items rest ++ ls) name key value done acc hk hv hdup]
    have hok' : ∀ kv ∈ rest, okKey kv.1 ∧ okValue kv.2 :=
      fun kv hkv => hok kv (List.mem_cons_of_mem _ hkv)
    have hnodup' : (((done ++ [(key, value)]) ++ rest).map Prod.fst).Nodup := by
      rw [List.append_assoc]
      simpa using hnodup
    rw [ih (done ++ [(key, value)]) hok' hnodup']
    rw [List.append_assoc]
    rfl

/-- Write-then-read for a whole config, relative to the reader's state: the
written lines of the remaining sections are consumed and appended after the
already-parsed sections, when the section names are ok and globally
distinct, and each section's keys are ok and distinct with ok values. -/
theorem parse_go_write_config (cfg : Config) :
    ∀ (cur : Option (String × List (String × String))) (acc : Config),
      (∀ sec ∈ cfg, okSectionName sec.1 ∧ ∀ kv ∈ sec.2, okKey kv.1 ∧ okValue kv.2) →
      (((acc ++ flushCur cur) ++ cfg).map Prod.fst).Nodup →
      (∀ sec ∈ cfg, (sec.2.map Prod.fst).Nodup) →
      parse_go (write_config cfg) cur acc = some ((acc ++ flushCur cur) ++ cfg) := by
  induction cfg with
  | nil =>
    intro cur acc _ _ _
    simp [write_config, parse_go]
  | cons sec rest ih =>
    intro cur acc hok hnodup hitems
    obtain ⟨name, items⟩ := sec
    have hlines : write_config ((name, items) :: rest)
        = (('[' :: name.toList) ++ [']'])
          :: (write_items items ++ ([] :: write_config rest)) := by
      simp [write_config, write_section]
    rw [hlines]
    have hsec := hok (name, items) (List.mem_cons_self ..)
    have hall : ((('[' :: name.toList) ++ [']']).all Char.isWhitespace) = false := by
      have h : '['.isWhitespace = false := rfl
      simp [List.cons_append, List.all_cons, h]
    have hws : (((('[' :: name.toList) ++ [']']).headD 'x').isWhitespace) = false := rfl
    have hh := header?_write_line name hsec.1
    have hdup : (((acc ++ flushCur cur).map Prod.fst).contains name) = false := by
      rw [List.map_append] at hnodup
      have hdisj := (List.nodup_append.mp hnodup).2.2
      have hmem : name ∈ ((name, items) :: rest).map Prod.fst := by simp
      have hnot : name ∉ (acc ++ flushCur cur).map Prod.fst := fun hin => hdisj hin hmem
      simpa using hnot
    rw [parse_go_header _ _ _ _ _ hall hws hh hdup]
    rw [parse_go_write_items items name ([] :: write_config rest)
      (acc ++ flushCur cur) [] hsec.2
      (by simpa using hitems (name, items) (List.mem_cons_self ..))]
    rw [parse_go_blank]
    have hok' : ∀ s ∈ rest, okSectionName s.1 ∧ ∀ kv ∈ s.2, okKey kv.1 ∧ okValue kv.2 :=
      fun s hs => hok s (List.mem_cons_of_mem _ hs)
    have hitems' : ∀ s ∈ rest, (s.2.map Prod.fst).Nodup :=
      fun s hs => hitems s (List.mem_cons_of_mem _ hs)
    have hnodup' : ((((acc ++ flushCur cur)
        ++ flushCur (some (name, [] ++ items))) ++ rest).map Prod.fst).Nodup := by
      simp only [flushCur, List.nil_append]
      rw [List.append_assoc]
      exact hnodup
    rw [ih (some (name, [] ++ items)) (acc ++ flushCur cur) hok' hnodup' hitems']
    simp [flushCur, List.append_assoc]

/-- Appending the literal `:51820` port suffix preserves value-okness. -/
theorem okValue_endpoint (ip : String) (h : okValue ip) : okValue (ip ++ ":51820") := by
  obtain ⟨hl, hr, hch⟩ := h
  have hlist : (ip ++ ":51820").toList = ip.toList ++ (":51820" : String).toList := rfl
  have hsuffix : (":51820" : String).toList = [':', '5', '1', '8', '2', '0'] := rfl
  refine ⟨?_, ?_, ?_⟩
  · rw [hlist]
    cases hc : ip.toList with
    | nil => decide
    | cons c cs =>
      have hcw : c.isWhitespace = false := head_not_ws_of_lstrip c cs (hc ▸ hl)
      simp [lstripC, List.cons_append, List.dropWhile_cons, hcw]
  · rw [hlist, rstripC, List.reverse_append, hsuffix]
    have h0 : '0'.isWhitespace = false := rfl
    simp [List.cons_append, List.dropWhile_cons, h0, hsuffix]
  · intro ch hch2
    rw [hlist] at hch2
    rcases List.mem_append.mp hch2 with h1 | h1
    · exact hch ch h1
    · have hfix : ∀ c ∈ (":51820" : String).toList, c ≠ '\n' ∧ c ≠ '\r' ∧ c ≠ '%' := by
        decide
      exact hfix ch h1

/-- Setting an option makes it readable back. -/
theorem find_opt_set_opt_self (items : List (String × String)) (key value : String) :
    find_opt (set_opt items key value) key = some value := by
  induction items with
  | nil => simp [set_opt, find_opt]
  | cons kv rest ih =>
    by_cases h : kv.1 = key
    · simp [set_opt, find_opt, h]
    · simp [set_opt, find_opt, h, ih]

/-- Setting an option leaves every other option of the section unchanged. -/
theorem find_opt_set_opt_ne (items : List (String × String)) (key value opt : String)
    (h : opt ≠ key) :
    find_opt (set_opt items key value) opt = find_opt items opt := by
  induction items with
  | nil => simp [set_opt, find_opt, h, Ne.symm h]
  | cons kv rest ih =>
    by_cases hk : kv.1 = key
    · simp [set_opt, find_opt, hk, Ne.symm h, fun hko : kv.1 = opt => h (hko ▸ hk)]
    · by_cases hko : kv.1 = opt
      · simp [set_opt, find_opt, hk, hko, h]
      · simp [set_opt, find_opt, hk, hko, ih]

/-- Setting inside one section leaves every other section unchanged. -/
theorem find_section_config_set_ne (config : Config) (s key value sec : String)
    (h : sec ≠ s) :
    find_section (config_set config s key value) sec = find_section config sec := by
  induction config with
  | nil => simp [config_set]
  | cons entry rest ih =>
    by_cases hn : entry.1 = s
    · simp [config_set, find_section, hn, Ne.symm h, fun hns : entry.1 = sec => h (hns ▸ hn)]
    · by_cases hns : entry.1 = sec
      · simp [config_set, find_section, hn, hns, h]
      · simp [config_set, find_section, hn, hns, ih]

/-- Setting inside a section updates exactly that (first matching) section. -/
theorem find_section_config_set_self (config : Config) (s key value : String) :
    find_section (config_set config s key value) s =
      (find_section config s).map (fun items => set_opt items key value) := by
  induction config with
  | nil => simp [config_set, find_section]
  | cons entry rest ih =>
    by_cases hn : entry.1 = s
    · simp [config_set, find_section, hn]
    · simp [config_set, find_section, hn, ih]

/-! ## Claim theorems -/

/-- Claim C5: on a non-empty relay list, `get_random_gateway` always returns
an element of the list, for every outcome of the random index source — the
chosen index `seed % length` is always within the list's bounds. -/
theorem get_random_gateway_mem (relays : List Relay) (seed : Nat)
    (h : relays ≠ []) :
    ∃ gateway, get_random_gateway (some relays) seed = .ok gateway ∧
      gateway ∈ relays := by
  have hlen : ¬ relays.length = 0 := fun hl => h (List.length_eq_zero.mp hl)
  refine ⟨relays.get ⟨seed % relays.length, Nat.mod_lt seed (Nat.pos_of_ne_zero hlen)⟩,
    ?_, List.get_mem _ _ _⟩
  simp [get_random_gateway, hlen]

/-- Witness for C5: a concrete two-relay list and seed. -/
theorem get_random_gateway_mem_witness :
    ∃ gateway, get_random_gateway (some [testRelay1, testRelay2]) 5 = .ok gateway ∧
      gateway ∈ [testRelay1, testRelay2] :=
  get_random_gateway_mem [testRelay1, testRelay2] 5 (by decide)

/-- Claim C6: on the empty relay list, `get_random_gateway` fails with a
`ValueError` (the `InvalidArgument` condition, raised by `randrange` on an
empty range) for every outcome of the random source — it never silently
succeeds or returns a default. -/
theorem get_random_gateway_empty (seed : Nat) :
    get_random_gateway (some []) seed = .error .valueError := rfl

/-- Claim C7: a network-layer fetch failure makes `create` exit with status 2,
and a `None` (no matching country/city) result from `ask_mullvad` makes it
exit with status 1; in both cases the result is an exit, not a written file,
and the two failure classes get these two distinct codes. -/
theorem create_exit_codes (country city private_key address device : String)
    (seed : Nat) :
    create country city private_key address device .netErr seed = .exited 2
    ∧ ∀ countries : List Country,
        ask_mullvad countries country city = none →
          create country city private_key address device (.resp countries) seed
            = .exited 1 := by
  refine ⟨rfl, fun countries h => ?_⟩
  simp [create, h]

/-- Claim C9: when `ask_mullvad` returns an empty relay list (the requested
country and city both matched but the matched city has zero relays), `create`
does not take the `is None` exit-1 path; it fails through the selector, whose
`randrange` on the empty range raises `ValueError`. -/
theorem create_empty_relays_value_error
    (country city private_key address device : String) (seed : Nat)
    (countries : List Country)
    (h : ask_mullvad countries country city = some []) :
    ask_mullvad countries country city ≠ none
    ∧ create country city private_key address device (.resp countries) seed
        = .raised .valueError
    ∧ create country city private_key address device (.resp countries) seed
        ≠ .exited 1 := by
  refine ⟨by simp [h], ?_, ?_⟩ <;> simp [create, h, get_random_gateway]

/-- Claim C2 (amended): `ask_mullvad` scans every country whose name matches
— not only the first — and returns the relay list of the first matching city
found in that scan; it returns `None` exactly when no name-matching country
contains a name-matching city, a valid result distinct from a fetch error. -/
theorem ask_mullvad_first_match (countries : List Country)
    (requested_country requested_city : String) :
    ask_mullvad countries requested_country requested_city =
      countries.findSome? (fun country =>
        if country.name = requested_country then
          (country.cities.find? (fun city => city.name == requested_city)).map City.relays
        else none)
    ∧ (ask_mullvad countries requested_country requested_city = none ↔
        ∀ country ∈ countries, country.name = requested_country →
          ∀ city ∈ country.cities, city.name ≠ requested_city) :=
  ⟨ask_mullvad_eq_findSome countries requested_country requested_city,
   ask_mullvad_eq_none_iff countries requested_country requested_city⟩

/-- Counterexample for C2 as stated: with two countries both named
"Netherlands", the first without an "Amsterdam" city, `ask_mullvad` keeps
scanning and returns the second country's relays, while the relay list
"nested under the first country whose name exactly equals the requested
country" does not exist (the spec-literal reading yields `none`); a matching
country/city pair does exist, so the `NotFound` clause does not apply. -/
theorem ask_mullvad_duplicate_country_counterexample :
    fetchRelays_specFirstCountry
        [⟨"Netherlands", [⟨"Rotterdam", []⟩]⟩,
         ⟨"Netherlands", [⟨"Amsterdam", [testRelay1]⟩]⟩]
        "Netherlands" "Amsterdam" = none
    ∧ ask_mullvad
        [⟨"Netherlands", [⟨"Rotterdam", []⟩]⟩,
         ⟨"Netherlands", [⟨"Amsterdam", [testRelay1]⟩]⟩]
        "Netherlands" "Amsterdam" = some [testRelay1]
    ∧ ¬ (∀ country ∈
          [⟨"Netherlands", [⟨"Rotterdam", []⟩]⟩,
           (⟨"Netherlands", [⟨"Amsterdam", [testRelay1]⟩]⟩ : Country)],
          country.name = "Netherlands" →
            ∀ city ∈ country.cities, city.name ≠ "Amsterdam") :=
  ⟨rfl, rfl, by decide⟩

/-- Witness for C9: a directory whose Amsterdam relay list is empty. -/
theorem create_empty_relays_value_error_witness :
    ask_mullvad [⟨"Netherlands", [⟨"Amsterdam", []⟩]⟩] "Netherlands" "Amsterdam" ≠ none
    ∧ create "Netherlands" "Amsterdam" "KEY" "10.65.123.45/32" "Unknown"
        (.resp [⟨"Netherlands", [⟨"Amsterdam", []⟩]⟩]) 0 = .raised .valueError
    ∧ create "Netherlands" "Amsterdam" "KEY" "10.65.123.45/32" "Unknown"
        (.resp [⟨"Netherlands", [⟨"Amsterdam", []⟩]⟩]) 0 ≠ .exited 1 :=
  create_empty_relays_value_error "Netherlands" "Amsterdam" "KEY" "10.65.123.45/32"
    "Unknown" 0 [⟨"Netherlands", [⟨"Amsterdam", []⟩]⟩] rfl

/-- Claim C1: on a config file whose `Interface` section exists and whose
`Peer` section carries the three annotations, `recreate` writes back a config
in which every `Interface` field and every `Peer` field other than
`# Hostname`, `PublicKey` and `Endpoint` keeps its previous value, while
those three equal the newly selected relay's hostname, public key, and
ipv4 address suffixed with `:51820`. -/
theorem recreate_refresh_frame (cfg : Config)
    (interface_items : List (String × String))
    (country city old_hostname : String) (countries : List Country)
    (seed : Nat) (gateway : Relay)
    (_hifc : find_section cfg "Interface" = some interface_items)
    (hco : config_get cfg "Peer" "# Country" = .ok country)
    (hci : config_get cfg "Peer" "# City" = .ok city)
    (hho : config_get cfg "Peer" "# Hostname" = .ok old_hostname)
    (hgw : get_random_gateway (ask_mullvad countries country city) seed = .ok gateway) :
    recreate (some cfg) (.resp countries) seed = .wrote (peer_refresh cfg gateway)
    ∧ (∀ opt, config_get (peer_refresh cfg gateway) "Interface" opt
        = config_get cfg "Interface" opt)
    ∧ (∀ opt, opt ≠ "# Hostname" → opt ≠ "PublicKey" → opt ≠ "Endpoint" →
        config_get (peer_refresh cfg gateway) "Peer" opt = config_get cfg "Peer" opt)
    ∧ config_get (peer_refresh cfg gateway) "Peer" "# Hostname" = .ok gateway.hostname
    ∧ config_get (peer_refresh cfg gateway) "Peer" "PublicKey" = .ok gateway.public_key
    ∧ config_get (peer_refresh cfg gateway) "Peer" "Endpoint"
        = .ok (gateway.ipv4_addr_in ++ ":51820") := by
  obtain ⟨peer_items, hpeer⟩ : ∃ items, find_section cfg "Peer" = some items := by
    cases hfs : find_section cfg "Peer" with
    | none => simp [config_get, hfs] at hco
    | some items => exact ⟨items, rfl⟩
  have hifc3 : find_section (peer_refresh cfg gateway) "Interface"
      = find_section cfg "Interface" := by
    unfold peer_refresh
    rw [find_section_config_set_ne _ _ _ _ _ (by decide),
      find_section_config_set_ne _ _ _ _ _ (by decide),
      find_section_config_set_ne _ _ _ _ _ (by decide)]
  have hpeer3 : find_section (peer_refresh cfg gateway) "Peer"
      = some (set_opt (set_opt (set_opt peer_items "# Hostname" gateway.hostname)
          "PublicKey" gateway.public_key)
          "Endpoint" (gateway.ipv4_addr_in ++ ":51820")) := by
    unfold peer_refresh
    rw [find_section_config_set_self, find_section_config_set_self,
      find_section_config_set_self, hpeer]
    rfl
  refine ⟨?_, ?_, ?_, ?_, ?_, ?_⟩
  · simp [recreate, hco, hci, hho, hgw]
  · intro opt
    simp [config_get, hifc3]
  · intro opt h1 h2 h3
    simp only [config_get, hpeer3, hpeer]
    rw [find_opt_set_opt_ne _ _ _ _ h3, find_opt_set_opt_ne _ _ _ _ h2,
      find_opt_set_opt_ne _ _ _ _ h1]
  · simp only [config_get, hpeer3]
    rw [find_opt_set_opt_ne _ _ _ _ (by decide), find_opt_set_opt_ne _ _ _ _ (by decide),
      find_opt_set_opt_self]
  · simp only [config_get, hpeer3]
    rw [find_opt_set_opt_ne _ _ _ _ (by decide), find_opt_set_opt_self]
  · simp only [config_get, hpeer3]
    rw [find_opt_set_opt_self]

/-- Witness for C1: the test suite's config refreshed from a one-relay
directory selecting `nl-ams-wg-002`. -/
theorem recreate_refresh_frame_witness :
    recreate (some testConfig) (.resp [⟨"Netherlands", [⟨"Amsterdam", [testRelay2]⟩]⟩]) 0
      = .wrote (peer_refresh testConfig testRelay2)
    ∧ (∀ opt, config_get (peer_refresh testConfig testRelay2) "Interface" opt
        = config_get testConfig "Interface" opt)
    ∧ (∀ opt, opt ≠ "# Hostname" → opt ≠ "PublicKey" → opt ≠ "Endpoint" →
        config_get (peer_refresh testConfig testRelay2) "Peer" opt
          = config_get testConfig "Peer" opt)
    ∧ config_get (peer_refresh testConfig testRelay2) "Peer" "# Hostname"
        = .ok testRelay2.hostname
    ∧ config_get (peer_refresh testConfig testRelay2) "Peer" "PublicKey"
        = .ok testRelay2.public_key
    ∧ config_get (peer_refresh testConfig testRelay2) "Peer" "Endpoint"
        = .ok (testRelay2.ipv4_addr_in ++ ":51820") :=
  recreate_refresh_frame testConfig
    [("# Device", "TestDevice"),
     ("PrivateKey", "test_private_key"),
     ("Address", "10.65.123.45/32"),
     ("DNS", "10.64.0.1"),
     ("Table", "42"),
     ("PostUp", "ip -4 route add 10.64.0.1 dev exit & ip -4 route add 193.138.218.74 dev exit")]
    "Netherlands" "Amsterdam" "old-hostname"
    [⟨"Netherlands", [⟨"Amsterdam", [testRelay2]⟩]⟩] 0 testRelay2
    rfl rfl rfl rfl rfl

/-- Claim C3: a successful `create` writes exactly the two-section config
with the fixed operational defaults, the caller-supplied parameters and the
selected relay's hostname, public key and `ipv4:51820` endpoint. -/
theorem create_config_fields (country city private_key address device : String)
    (countries : List Country) (seed : Nat) (relays : List Relay) (gateway : Relay)
    (hask : ask_mullvad countries country city = some relays)
    (hgw : get_random_gateway (some relays) seed = .ok gateway) :
    create country city private_key address device (.resp countries) seed =
      .wrote (create_config country city private_key address device gateway)
    ∧ config_get (create_config country city private_key address device gateway)
        "Interface" "# Device" = .ok device
    ∧ config_get (create_config country city private_key address device gateway)
        "Interface" "PrivateKey" = .ok private_key
    ∧ config_get (create_config country city private_key address device gateway)
        "Interface" "Address" = .ok address
    ∧ config_get (create_config country city private_key address device gateway)
        "Interface" "DNS" = .ok "10.64.0.1"
    ∧ config_get (create_config country city private_key address device gateway)
        "Interface" "Table" = .ok "42"
    ∧ config_get (create_config country city private_key address device gateway)
        "Interface" "PostUp"
        = .ok "ip -4 route add 10.64.0.1 dev exit & ip -4 route add 193.138.218.74 dev exit"
    ∧ config_get (create_config country city private_key address device gateway)
        "Peer" "# Country" = .ok country
    ∧ config_get (create_config country city private_key address device gateway)
        "Peer" "# City" = .ok city
    ∧ config_get (create_config country city private_key address device gateway)
        "Peer" "# Hostname" = .ok gateway.hostname
    ∧ config_get (create_config country city private_key address device gateway)
        "Peer" "PublicKey" = .ok gateway.public_key
    ∧ config_get (create_config country city private_key address device gateway)
        "Peer" "AllowedIPs" = .ok "0.0.0.0/0,::0/0"
    ∧ config_get (create_config country city private_key address device gateway)
        "Peer" "Endpoint" = .ok (gateway.ipv4_addr_in ++ ":51820") :=
  ⟨by simp [create, hask, hgw], rfl, rfl, rfl, rfl, rfl, rfl, rfl, rfl, rfl, rfl,
    rfl, rfl⟩

/-- Witness for C3, the spec's scenario: the two-relay Netherlands/Amsterdam
directory with forced selection of index 0 yields `Peer.Endpoint`
`185.213.154.68:51820` and relay 001's public key. -/
theorem create_config_fields_witness :
    create "Netherlands" "Amsterdam" "KEY" "10.65.123.45/32" "Unknown"
      (.resp testDirectory) 0 =
      .wrote (create_config "Netherlands" "Amsterdam" "KEY" "10.65.123.45/32"
        "Unknown" testRelay1)
    ∧ config_get (create_config "Netherlands" "Amsterdam" "KEY" "10.65.123.45/32"
        "Unknown" testRelay1) "Interface" "# Device" = .ok "Unknown"
    ∧ config_get (create_config "Netherlands" "Amsterdam" "KEY" "10.65.123.45/32"
        "Unknown" testRelay1) "Interface" "PrivateKey" = .ok "KEY"
    ∧ config_get (create_config "Netherlands" "Amsterdam" "KEY" "10.65.123.45/32"
        "Unknown" testRelay1) "Interface" "Address" = .ok "10.65.123.45/32"
    ∧ config_get (create_config "Netherlands" "Amsterdam" "KEY" "10.65.123.45/32"
        "Unknown" testRelay1) "Interface" "DNS" = .ok "10.64.0.1"
    ∧ config_get (create_config "Netherlands" "Amsterdam" "KEY" "10.65.123.45/32"
        "Unknown" testRelay1) "Interface" "Table" = .ok "42"
    ∧ config_get (create_config "Netherlands" "Amsterdam" "KEY" "10.65.123.45/32"
        "Unknown" testRelay1) "Interface" "PostUp"
        = .ok "ip -4 route add 10.64.0.1 dev exit & ip -4 route add 193.138.218.74 dev exit"
    ∧ config_get (create_config "Netherlands" "Amsterdam" "KEY" "10.65.123.45/32"
        "Unknown" testRelay1) "Peer" "# Country" = .ok "Netherlands"
    ∧ config_get (create_config "Netherlands" "Amsterdam" "KEY" "10.65.123.45/32"
        "Unknown" testRelay1) "Peer" "# City" = .ok "Amsterdam"
    ∧ config_get (create_config "Netherlands" "Amsterdam" "KEY" "10.65.123.45/32"
        "Unknown" testRelay1) "Peer" "# Hostname" = .ok testRelay1.hostname
    ∧ config_get (create_config "Netherlands" "Amsterdam" "KEY" "10.65.123.45/32"
        "Unknown" testRelay1) "Peer" "PublicKey" = .ok testRelay1.public_key
    ∧ config_get (create_config "Netherlands" "Amsterdam" "KEY" "10.65.123.45/32"
        "Unknown" testRelay1) "Peer" "AllowedIPs" = .ok "0.0.0.0/0,::0/0"
    ∧ config_get (create_config "Netherlands" "Amsterdam" "KEY" "10.65.123.45/32"
        "Unknown" testRelay1) "Peer" "Endpoint"
        = .ok (testRelay1.ipv4_addr_in ++ ":51820") :=
  create_config_fields "Netherlands" "Amsterdam" "KEY" "10.65.123.45/32" "Unknown"
    testDirectory 0 [testRelay1, testRelay2] testRelay1 rfl rfl

/-- Claim C8: `recreate` against an absent file, or an existing file without
a `Peer` section, fails with `configparser`'s `NoSectionError` for `Peer`
(the `ConfigLoadError` condition); the uncaught exception terminates the
invocation with a non-zero status and nothing is written. -/
theorem recreate_missing_peer (net : NetResult) (seed : Nat) :
    recreate none net seed = .raised (.noSectionError "Peer")
    ∧ ∀ cfg : Config, find_section cfg "Peer" = none →
        recreate (some cfg) net seed = .raised (.noSectionError "Peer") := by
  refine ⟨rfl, fun cfg h => ?_⟩
  simp [recreate, config_get, h]

/-- Claim C10: when the stored country/city pair matches nothing in the
directory, `recreate` passes `ask_mullvad`'s `None` straight to
`get_random_gateway`, so `len(None)` raises `TypeError`; the run does not
take `create`'s diagnostic exit-1 path. -/
theorem recreate_unmatched_location_type_error (cfg : Config)
    (country city old_hostname : String) (countries : List Country) (seed : Nat)
    (hco : config_get cfg "Peer" "# Country" = .ok country)
    (hci : config_get cfg "Peer" "# City" = .ok city)
    (hho : config_get cfg "Peer" "# Hostname" = .ok old_hostname)
    (hask : ask_mullvad countries country city = none) :
    recreate (some cfg) (.resp countries) seed = .raised .typeError
    ∧ recreate (some cfg) (.resp countries) seed ≠ .exited 1 := by
  have h1 : recreate (some cfg) (.resp countries) seed = .raised .typeError := by
    simp [recreate, hco, hci, hho, hask, get_random_gateway]
  exact ⟨h1, by simp [h1]⟩

/-- Witness for C10: the test suite's config against an empty directory. -/
theorem recreate_unmatched_location_type_error_witness :
    recreate (some testConfig) (.resp []) 0 = .raised .typeError
    ∧ recreate (some testConfig) (.resp []) 0 ≠ .exited 1 :=
  recreate_unmatched_location_type_error testConfig "Netherlands" "Amsterdam"
    "old-hostname" [] 0 rfl rfl rfl rfl

/-- Claim C4 (amended): serializing the config `create` builds and parsing
it back yields the identical config — hence identical string values for
every set field of both sections, the annotative `# `-prefixed keys
included — provided every caller-supplied value is free of leading/trailing
whitespace, newlines, carriage returns and `%` (the reader strips each
parsed value, treats a value's newline as a continuation line, and expands
`%` interpolations, so such values do not survive verbatim). -/
theorem write_parse_roundtrip
    (country city private_key address device hostname pubkey ipv4 : String)
    (hcountry : okValue country) (hcity : okValue city) (hpk : okValue private_key)
    (haddr : okValue address) (hdev : okValue device) (hhost : okValue hostname)
    (hkey : okValue pubkey) (hip : okValue ipv4) :
    parse_config (write_config (create_config country city private_key address device
        ⟨hostname, pubkey, ipv4⟩))
      = some (create_config country city private_key address device
        ⟨hostname, pubkey, ipv4⟩) := by
  have hok : ∀ sec ∈ create_config country city private_key address device
      ⟨hostname, pubkey, ipv4⟩,
      okSectionName sec.1 ∧ ∀ kv ∈ sec.2, okKey kv.1 ∧ okValue kv.2 := by
    intro sec hsec
    simp only [create_config, List.mem_cons, List.not_mem_nil, or_false] at hsec
    rcases hsec with h | h
    · subst h
      refine ⟨(by decide : okSectionName "Interface"), ?_⟩
      intro kv hkv
      simp only [List.mem_cons, List.not_mem_nil, or_false] at hkv
      rcases hkv with h | h | h | h | h | h <;> subst h
      · exact ⟨(by decide : okKey "# Device"), hdev⟩
      · exact ⟨(by decide : okKey "PrivateKey"), hpk⟩
      · exact ⟨(by decide : okKey "Address"), haddr⟩
      · exact ⟨(by decide : okKey "DNS"), (by decide : okValue "10.64.0.1")⟩
      · exact ⟨(by decide : okKey "Table"), (by decide : okValue "42")⟩
      · exact ⟨(by decide : okKey "PostUp"),
          (by decide : okValue "ip -4 route add 10.64.0.1 dev exit & ip -4 route add 193.138.218.74 dev exit")⟩
    · subst h
      refine ⟨(by decide : okSectionName "Peer"), ?_⟩
      intro kv hkv
      simp only [List.mem_cons, List.not_mem_nil, or_false] at hkv
      rcases hkv with h | h | h | h | h | h <;> subst h
      · exact ⟨(by decide : okKey "# Country"), hcountry⟩
      · exact ⟨(by decide : okKey "# City"), hcity⟩
      · exact ⟨(by decide : okKey "# Hostname"), hhost⟩
      · exact ⟨(by decide : okKey "PublicKey"), hkey⟩
      · exact ⟨(by decide : okKey "AllowedIPs"), (by decide : okValue "0.0.0.0/0,::0/0")⟩
      · exact ⟨(by decide : okKey "Endpoint"), okValue_endpoint ipv4 hip⟩
  have hitems : ∀ sec ∈ create_config country city private_key address device
      ⟨hostname, pubkey, ipv4⟩, (sec.2.map Prod.fst).Nodup := by
    intro sec hsec
    simp only [create_config, List.mem_cons, List.not_mem_nil, or_false] at hsec
    rcases hsec with h | h <;> subst h <;> simp
  have hnodup : ((([] ++ flushCur none)
      ++ create_config country city private_key address device
        ⟨hostname, pubkey, ipv4⟩).map Prod.fst).Nodup := by
    simp [flushCur, create_config]
  have hmain := parse_go_write_config
    (create_config country city private_key address device ⟨hostname, pubkey, ipv4⟩)
    none [] hok hnodup hitems
  simpa [parse_config, flushCur] using hmain

/-- Witness for C4 (amended): concrete well-behaved values round-trip to the
identical config. -/
theorem write_parse_roundtrip_witness :
    parse_config (write_config (create_config "Netherlands" "Amsterdam" "KEY"
        "10.65.123.45/32" "Unknown"
        ⟨"nl-ams-wg-001", "test_public_key_1", "185.213.154.68"⟩))
      = some (create_config "Netherlands" "Amsterdam" "KEY" "10.65.123.45/32" "Unknown"
        ⟨"nl-ams-wg-001", "test_public_key_1", "185.213.154.68"⟩) :=
  write_parse_roundtrip "Netherlands" "Amsterdam" "KEY" "10.65.123.45/32" "Unknown"
    "nl-ams-wg-001" "test_public_key_1" "185.213.154.68"
    (by decide) (by decide) (by decide) (by decide) (by decide) (by decide)
    (by decide) (by decide)

/-- Counterexample for C4 as stated: with device label `x ` (a trailing
space) the written `# Device = x ` line is read back as `x`, because the
reader strips parsed values — so the round-trip is not the identity for
every set of input parameters. -/
theorem write_parse_trailing_space_counterexample :
    (parse_config (write_config (create_config "Netherlands" "Amsterdam" "KEY"
        "10.65.123.45/32" "x " testRelay1))).map
      (fun cfg => config_get cfg "Interface" "# Device") = some (.ok "x")
    ∧ config_get (create_config "Netherlands" "Amsterdam" "KEY" "10.65.123.45/32"
        "x " testRelay1) "Interface" "# Device" = .ok "x " :=
  ⟨rfl, rfl⟩

end WgConfGen
